import Mathlib

/-!
Verification development for the radiodigger now-playing / session-persistence
core.  The definitions below are shallow embeddings of the Python source
(`radiodigger.py`); each keeps the source's name where Lean allows it.
Machine integers are modelled as `Int`; Python float expressions are modelled
over `ℚ` with explicit truncation; fallible external calls are modelled by
explicit state.
-/

namespace Radiodigger

/-- Embeds `clamp(n, lo, hi) = max(lo, min(hi, n))` from the source. -/
def clamp (n lo hi : Int) : Int := max lo (min hi n)

/-- Python `str.strip()`: remove leading and trailing whitespace. -/
def strip (s : String) : String :=
  ⟨((s.data.dropWhile Char.isWhitespace).reverse.dropWhile Char.isWhitespace).reverse⟩

/-- State of the `NowPlaying` class: station identity, current metadata line
and newest-first history.  The `threading.Lock` serialises accesses; each
embedded operation is the whole critical section, applied atomically. -/
structure NowPlaying where
  station_name : String
  stationuuid : Option String
  line : String
  history : List String
  deriving Repr, DecidableEq

/-- `NowPlaying.max_history = 200`. -/
def max_history : Nat := 200

/-- `NowPlaying.__init__`: placeholders and empty history. -/
def NowPlaying.init : NowPlaying :=
  { station_name := "—", stationuuid := none, line := "—", history := [] }

/-- `NowPlaying.set_station`: `self.station_name = station_name or "Unknown"`,
`self.stationuuid = stationuuid`; line and history are kept. -/
def set_station (s : NowPlaying) (station_name : String) (stationuuid : Option String) :
    NowPlaying :=
  { s with
    station_name := if station_name = "" then "Unknown" else station_name
    stationuuid := stationuuid }

/-- `NowPlaying.update_line`: strip the argument; return unchanged if it is
empty or equal to `self.line`; otherwise set it as the current line, insert it
at the front of the history and truncate to `max_history`. -/
def update_line (s : NowPlaying) (line : String) : NowPlaying :=
  let t := strip line
  if t = "" then s
  else if t = s.line then s
  else { s with line := t, history := (t :: s.history).take max_history }

/-- `NowPlaying.snapshot`: value copy of `(station_name, line, history)`. -/
def snapshot (s : NowPlaying) : String × String × List String :=
  (s.station_name, s.line, s.history)

/-- The state after a sequence of `update_line` calls from the initial state. -/
def runUpdates (ls : List String) : NowPlaying :=
  ls.foldl update_line NowPlaying.init

/-- The invariant of the shared now-playing record: bounded history, no two
consecutive equal entries, and the current line is the head of the history
whenever the history is non-empty. -/
def Inv (s : NowPlaying) : Prop :=
  s.history.length ≤ 200 ∧
  s.history.Chain' (· ≠ ·) ∧
  (∀ x xs, s.history = x :: xs → s.line = x)

/-- A station record as returned by the radio-browser search; `dict.get`
on a possibly missing key is an `Option`. -/
structure Station where
  url_resolved : Option String
  name : Option String
  stationuuid : Option String
  deriving Repr, DecidableEq

/-- The libVLC media player as seen through the calls the source makes:
loaded media URL, playing flag and current audio volume.
`audio_get_volume` returns an `int` that can be negative (libVLC reports
`-1` when no volume is available), so the volume is an `Int`. -/
structure MediaPlayer where
  media : Option String
  playing : Bool
  volume : Int
  deriving Repr, DecidableEq

/-- Contents of `STATE_FILE`: `{"last_stationuuid": ..., "show_history": ...}`. -/
structure StateData where
  last_stationuuid : Option String
  show_history : Bool
  deriving Repr, DecidableEq

/-- Python dict key lookup on an association list (stationuuid → volume). -/
def dictFind (m : List (String × Int)) (k : String) : Option Int :=
  (m.find? (fun p => p.1 == k)).map (·.2)

/-- State of the `Player` class together with the persisted `STATE_FILE`
contents it writes through `save_json`. -/
structure Player where
  player : MediaPlayer
  now : NowPlaying
  volumes : List (String × Int)
  state : StateData
  state_file : StateData
  deriving Repr, DecidableEq

/-- `Player.stop`: stops playback (idempotent; exceptions swallowed). -/
def Player.stop (p : Player) : Player :=
  { p with player := { p.player with playing := false } }

/-- `Player.get_volume`: the engine's current volume. -/
def Player.get_volume (p : Player) : Int := p.player.volume

/-- `Player.is_playing`. -/
def Player.is_playing (p : Player) : Bool := p.player.playing

/-- `Player.set_volume`: clamp to `[0, 100]`, then apply to the engine. -/
def Player.set_volume (p : Player) (vol : Int) : Player :=
  { p with player := { p.player with volume := clamp vol 0 100 } }

/-- Python truthiness of an optional string (`None` and `""` are falsy). -/
def truthyStr : Option String → Bool
  | none => false
  | some s => s != ""

/-- `Player.play_station`, line by line: bail out returning `False` on a
missing/empty `url_resolved`; otherwise stop, set the station identity, load
and start the media, apply the persisted per-station volume when the uuid is
truthy and present in `volumes`, else default to 70 when `get_volume() <= 0`;
finally record and persist `last_stationuuid`, returning `True`. -/
def Player.play_station (p : Player) (st : Station) : Bool × Player :=
  match st.url_resolved with
  | none => (false, p)
  | some url =>
    if url = "" then (false, p)
    else
      let name := st.name.getD "Unknown"
      let stationuuid := st.stationuuid
      let p1 := p.stop
      let p2 := { p1 with now := set_station p1.now name stationuuid }
      let p3 := { p2 with player :=
        { p2.player with media := some url, playing := true } }
      let p4 :=
        if truthyStr stationuuid &&
            (dictFind p3.volumes (stationuuid.getD "")).isSome then
          p3.set_volume ((dictFind p3.volumes (stationuuid.getD "")).getD 0)
        else if p3.get_volume ≤ (0 : Int) then p3.set_volume 70
        else p3
      let newState := { p4.state with last_stationuuid := stationuuid }
      (true, { p4 with state := newState, state_file := newState })

/-- A `Player` fixture: fresh now-playing state, no persisted volumes, engine
volume `v`, nothing loaded. -/
def testPlayer (v : Int) : Player :=
  { player := { media := none, playing := false, volume := v }
    now := NowPlaying.init
    volumes := []
    state := { last_stationuuid := none, show_history := true }
    state_file := { last_stationuuid := none, show_history := true } }

/-- A station fixture with uuid `"abc"` and a non-empty resolved URL. -/
def testStation : Station :=
  { url_resolved := some "http://x", name := some "Radio", stationuuid := some "abc" }

/-- Contents of a persisted file as seen by `load_json`: missing (open
raises), present but unparsable (`json.load` raises), or parsed data. -/
inductive FileData (α : Type) where
  | missing : FileData α
  | corrupt : FileData α
  | parsed : α → FileData α
  deriving Repr, DecidableEq

/-- `load_json(path, default)`: a total function — any exception while opening
or parsing is caught and the default returned. -/
def load_json {α : Type} (file : FileData α) (d : α) : α :=
  match file with
  | .missing => d
  | .corrupt => d
  | .parsed a => a

/-- The favorites load site: `load_json(FAV_FILE, {})`. -/
def load_favorites (f : FileData (List (String × String))) : List (String × String) :=
  load_json f []

/-- The volumes load site: `load_json(VOL_FILE, {})`. -/
def load_volumes (f : FileData (List (String × Int))) : List (String × Int) :=
  load_json f []

/-- The documented default session state. -/
def default_state : StateData := { last_stationuuid := none, show_history := true }

/-- The session-state load site: `load_json(STATE_FILE, {...defaults...})`. -/
def load_state (f : FileData StateData) : StateData :=
  load_json f default_state

/-- A file system: path → contents (serialized text), `none` when absent. -/
def FS : Type := String → Option String

/-- The temporary path used by `save_json`: `path + ".tmp"`. -/
def tmp_path (path : String) : String := path ++ ".tmp"

/-- The file system after `k` elementary steps of `save_json fs path data`:
while `k ≤ data.length` the first `k` characters have been written to the
temporary path (the write may be interrupted anywhere); once the write is
complete, `os.replace` atomically installs the full contents at `path`. -/
def save_json_state (fs : FS) (path data : String) (k : Nat) : FS :=
  if k ≤ data.length then
    fun q => if q = tmp_path path then some ⟨data.data.take k⟩ else fs q
  else
    fun q =>
      if q = path then some data
      else if q = tmp_path path then none
      else fs q

/-- Optional metadata fields exposed by the playback engine
(`media.get_meta(...)`, each possibly absent). -/
structure MediaMeta where
  artist : Option String
  title : Option String
  now_playing : Option String
  description : Option String
  deriving Repr, DecidableEq

/-- The metadata resolution in `Player._meta_loop`: each field is defaulted
to `""` (`... or ""`); then `artist — title` when both are non-empty, else
the title, else the first non-empty of the now-playing and description tags,
else the fixed placeholder. -/
def meta_line (m : MediaMeta) : String :=
  let artist := m.artist.getD ""
  let title := m.title.getD ""
  if artist ≠ "" ∧ title ≠ "" then artist ++ " — " ++ title
  else if title ≠ "" then title
  else
    let np := m.now_playing.getD ""
    let desc := m.description.getD ""
    if np ≠ "" then np
    else if desc ≠ "" then desc
    else "Stream (no metadata)"

/-- First non-empty candidate of a list, with a final default. -/
def firstNonEmpty (cs : List String) (d : String) : String :=
  match cs with
  | [] => d
  | c :: rest => if c ≠ "" then c else firstNonEmpty rest d

/-- The spec's extraction precedence, stated independently of the code: the
combined `artist — title` form is a candidate only when both components are
non-empty, followed by the title, the now-playing tag, the description tag,
and the fixed placeholder. -/
def meta_line_spec (m : MediaMeta) : String :=
  let artist := m.artist.getD ""
  let title := m.title.getD ""
  firstNonEmpty
    [if artist ≠ "" ∧ title ≠ "" then artist ++ " — " ++ title else "",
     title, m.now_playing.getD "", m.description.getD ""]
    "Stream (no metadata)"

/-- One tick of `Player._meta_loop` with media loaded: the resolved line is
the string fed to `update_line`; with no media the tick writes nothing. -/
def meta_tick (now : NowPlaying) (media : Option MediaMeta) : NowPlaying :=
  match media with
  | none => now
  | some m => update_line now (meta_line m)

/-- Python `int()` applied to a (non-integral) number: truncation toward 0. -/
def py_int (q : ℚ) : Int := if q < 0 then -⌊-q⌋ else ⌊q⌋

/-- `vu_width = min(30, max(10, w - 20))` for terminal width `w`. -/
def vu_width (w : Int) : Int := min 30 (max 10 (w - 20))

/-- The VU fallback in `station_browser` when `vu.level()` yields no sample:
`base = int((get_volume() / 100) * vu_width)`, `lvl = base if playing else 0`,
then `lvl = clamp(lvl, 0, vu_width)`. -/
def vu_fallback (volume width : Int) (playing : Bool) : Int :=
  let base := py_int ((volume : ℚ) / 100 * (width : ℚ))
  clamp (if playing then base else 0) 0 width

/-- Program points of the `_meta_loop` poller thread: at the `while` condition
check, inside the loop body (about to write through `update_line`), inside
`time.sleep(1.5)`, or terminated. -/
inductive PollerPC where
  | checking | working | sleeping | stopped
  deriving Repr, DecidableEq

/-- Joint state of the controller and the `_meta_loop` daemon thread:
`stop_flag` is `Player._stop_flag`; `writes` counts the shared-state writes
performed by the poller. -/
structure PollerSys where
  stop_flag : Bool
  pc : PollerPC
  writes : Nat
  deriving Repr, DecidableEq

/-- Interleaved small-step semantics of the poller and `Player.shutdown`.
`shutdown` sets `_stop_flag` and returns at once — it never joins the thread,
which was started with `daemon=True`. -/
inductive PollerStep : PollerSys → PollerSys → Prop where
  | shutdown (s : PollerSys) :
      PollerStep s { s with stop_flag := true }
  | check_continue (s : PollerSys) (h1 : s.stop_flag = false)
      (h2 : s.pc = .checking) : PollerStep s { s with pc := .working }
  | check_exit (s : PollerSys) (h1 : s.stop_flag = true)
      (h2 : s.pc = .checking) : PollerStep s { s with pc := .stopped }
  | write_line (s : PollerSys) (h : s.pc = .working) :
      PollerStep s { s with pc := .sleeping, writes := s.writes + 1 }
  | sleep_done (s : PollerSys) (h : s.pc = .sleeping) :
      PollerStep s { s with pc := .checking }

/-- How many further shared-state writes the poller can still perform from a
given program point once the stop flag is set. -/
def writeBound : PollerPC → Nat
  | .working => 1
  | _ => 0

/-- Effect classes of the statements executed inside the `with self.lock:`
blocks of `NowPlaying`. -/
inductive LockAction where
  | assign
  | makedirs
  | write_cache
  | spawn_tmux
  deriving Repr, DecidableEq

/-- Whether an under-lock statement performs I/O or another blocking call. -/
def LockAction.effectful : LockAction → Bool
  | .assign => false
  | _ => true

/-- The body of `_write_nowplay`, always called while the lock is held:
`os.makedirs(CACHE_DIR, ...)`, the `NOWPLAY_FILE` write, and (when tmux is
present) a `subprocess.run` of `tmux set`. -/
def write_nowplay_actions : List LockAction :=
  [.makedirs, .write_cache, .spawn_tmux]

/-- Statements executed under the lock by `set_station`: two field
assignments, then the `_write_nowplay` call. -/
def set_station_critical : List LockAction :=
  [.assign, .assign] ++ write_nowplay_actions

/-- Statements executed under the lock by `update_line`: the comparison, and
when the stripped line differs from the current one, the line assignment, the
history insert, the truncation, and the `_write_nowplay` call. -/
def update_line_critical (changed : Bool) : List LockAction :=
  if changed then [.assign, .assign, .assign, .assign] ++ write_nowplay_actions
  else [.assign]

/-- The snapshot critical section: a single copying read. -/
def snapshot_critical : List LockAction := [.assign]

end Radiodigger

namespace Radiodigger

theorem update_line_preserves_Inv (s : NowPlaying) (l : String) (h : Inv s) :
    Inv (update_line s l) := by
  obtain ⟨hlen, hchain, hhead⟩ := h
  unfold update_line
  by_cases h1 : strip l = ""
  · simp only [h1, if_pos rfl]
    exact ⟨hlen, hchain, hhead⟩
  · by_cases h2 : strip l = s.line
    · simpa [h1, h2] using ⟨hlen, hchain, hhead⟩
    · simp only [h1, h2, if_false]
      refine ⟨?_, ?_, ?_⟩
      · simp [max_history]
      · apply List.Chain'.take
        cases hh : s.history with
        | nil => simp
        | cons x xs =>
          rw [hh] at hchain
          refine List.chain'_cons.mpr ⟨?_, hchain⟩
          have := hhead x xs hh
          rw [← this]
          exact h2
      · intro x xs hx
        have ht : (strip l :: s.history).take max_history =
            strip l :: s.history.take 199 := by
          simp [max_history, List.take_succ_cons]
        simp only [ht] at hx
        simpa using (List.cons.injEq _ _ _ _ ▸ hx).1

theorem Inv_init : Inv NowPlaying.init := by
  refine ⟨by simp [NowPlaying.init], by simp [NowPlaying.init], ?_⟩
  intro x xs hx
  simp [NowPlaying.init] at hx

/-- C1: for every sequence of `update_line` calls from the initial state, the
history never exceeds 200 entries, never contains two consecutive equal
entries, and the current line equals the head of the history whenever the
history is non-empty. -/
theorem C1_update_line_invariant (ls : List String) : Inv (runUpdates ls) := by
  unfold runUpdates
  induction ls using List.reverseRecOn with
  | nil => exact Inv_init
  | append_singleton xs x ih =>
    rw [List.foldl_append, List.foldl_cons, List.foldl_nil]
    exact update_line_preserves_Inv _ _ ih

/-- C1 witness: the invariant holds at a concrete update sequence. -/
theorem C1_witness : Inv (runUpdates ["a", "b", "a"]) :=
  C1_update_line_invariant ["a", "b", "a"]

/-- C2 counterexample: on the initial state the history is empty and the
text `"—"` is neither empty nor whitespace-only (it strips to itself), so
the claimed "otherwise" branch predicts that `"—"` becomes the new head and
history becomes `["—"]`; the code instead compares the stripped text against
`self.line`, initialized to the placeholder `"—"`, and does nothing — the
call is a no-op and the history stays empty. -/
theorem C2_counterexample :
    update_line NowPlaying.init "—" = NowPlaying.init ∧
    (update_line NowPlaying.init "—").history = [] ∧
    (update_line NowPlaying.init "—").history ≠ ["—"] ∧
    strip "—" = "—" ∧ ("—" : String) ≠ "" ∧
    NowPlaying.init.history = [] := by
  refine ⟨by decide, by decide, by decide, by decide, by decide, rfl⟩

/-- C2 (amended): `update_line s t` is a no-op — returns the state unchanged
— exactly when `t` strips to the empty string (in particular when it is
empty or whitespace-only) or the stripped text equals the current line
`s.line` (initially the placeholder `"—"`, even while the history is empty);
in every other case the stripped text becomes the new current line and is
prepended to the history, truncated to the 200-entry bound, with the station
identity untouched.  Calling it twice with `"A — B"` from the initial state
leaves history `["A — B"]`. -/
theorem C2_update_line_cases :
    (∀ (s : NowPlaying) (t : String),
      update_line s t = s ↔ (strip t = "" ∨ strip t = s.line)) ∧
    (∀ (s : NowPlaying) (t : String), strip t ≠ "" → strip t ≠ s.line →
      (update_line s t).line = strip t ∧
      (update_line s t).history = (strip t :: s.history).take max_history ∧
      (update_line s t).station_name = s.station_name ∧
      (update_line s t).stationuuid = s.stationuuid) ∧
    (update_line (update_line NowPlaying.init "A — B") "A — B").history =
      ["A — B"] := by
  have hline : ∀ (s : NowPlaying) (t : String), strip t ≠ "" →
      strip t ≠ s.line → (update_line s t).line = strip t := by
    intro s t h1 h2
    unfold update_line
    simp [h1, h2]
  refine ⟨?_, ?_, by decide⟩
  · intro s t
    constructor
    · intro heq
      by_contra hcon
      push_neg at hcon
      obtain ⟨h1, h2⟩ := hcon
      have hl := hline s t h1 h2
      rw [heq] at hl
      exact h2 hl.symm
    · intro h
      unfold update_line
      rcases h with h | h
      · simp [h]
      · by_cases h0 : strip t = ""
        · simp [h0]
        · simp [h0, h]
  · intro s t h1 h2
    refine ⟨hline s t h1 h2, ?_, ?_, ?_⟩ <;>
      (unfold update_line; simp [h1, h2])

/-- C2 witness: the amended characterization applied concretely — a
whitespace-only update is a no-op, while a fresh line becomes the head,
entering the history. -/
theorem C2_witness :
    update_line NowPlaying.init "   " = NowPlaying.init ∧
    (update_line NowPlaying.init "Ready").line = "Ready" ∧
    (update_line NowPlaying.init "Ready").history = ["Ready"] := by
  have h1 := (C2_update_line_cases.1 NowPlaying.init "   ").mpr
    (Or.inl (by decide))
  have h2 := C2_update_line_cases.2.1 NowPlaying.init "Ready"
    (by decide) (by decide)
  have hs : strip "Ready" = "Ready" := by decide
  rw [hs] at h2
  refine ⟨h1, h2.1, ?_⟩
  rw [h2.2.1]
  decide

/-- C3 counterexample: with no persisted volume and the engine reporting
volume `-1` (libVLC's "no volume available"), `play_station` still applies
the default of 70 although the engine volume was not 0 — the code's guard is
`get_volume() <= 0`, not `== 0`. -/
theorem C3_counterexample :
    (testPlayer (-1)).get_volume = -1 ∧
    (testPlayer (-1)).get_volume ≠ 0 ∧
    dictFind (testPlayer (-1)).volumes "abc" = none ∧
    ((testPlayer (-1)).play_station testStation).2.get_volume = 70 := by
  refine ⟨rfl, by decide, rfl, by decide⟩

/-- C3 (amended): for a station with a truthy uuid and non-empty resolved
URL, `play_station` succeeds and persists `last_stationuuid`; when a volume
is persisted for the uuid it is applied (clamped to `[0,100]`), otherwise
the default of 70 is applied exactly when the engine's current volume is
`≤ 0` (in particular when it is 0), the volume being left unchanged
otherwise. -/
theorem C3_play_station_volume (p : Player) (st : Station) (url u : String)
    (hurl : st.url_resolved = some url) (hne : url ≠ "")
    (huuid : st.stationuuid = some u) (hu : u ≠ "") :
    ((p.play_station st).1 = true ∧
     (p.play_station st).2.state_file.last_stationuuid = some u) ∧
    (dictFind p.volumes u = none →
      (p.play_station st).2.get_volume =
        (if p.get_volume ≤ 0 then 70 else p.get_volume)) ∧
    (∀ v, dictFind p.volumes u = some v →
      (p.play_station st).2.get_volume = clamp v 0 100) := by
  unfold Player.play_station
  rw [hurl, huuid]
  simp only [if_neg hne]
  refine ⟨⟨by simp, by simp⟩, ?_, ?_⟩
  · intro hnone
    by_cases hvol : p.player.volume ≤ 0 <;>
      simp [Player.stop, Player.set_volume, Player.get_volume, set_station,
        truthyStr, hu, hnone, hvol, clamp]
  · intro v hv
    simp [Player.stop, Player.set_volume, Player.get_volume, set_station,
      truthyStr, hu, hv, clamp]

/-- C3 witness: the spec's scenario — uuid `"abc"`, URL `"http://x"`, no
persisted volume, engine volume 0 — returns success, ends with volume 70,
and persists `last_stationuuid = "abc"`. -/
theorem C3_witness :
    ((testPlayer 0).play_station testStation).1 = true ∧
    ((testPlayer 0).play_station testStation).2.get_volume = 70 ∧
    ((testPlayer 0).play_station testStation).2.state_file.last_stationuuid =
      some "abc" := by
  have h := C3_play_station_volume (testPlayer 0) testStation "http://x" "abc"
    rfl (by decide) rfl (by decide)
  refine ⟨h.1.1, ?_, h.1.2⟩
  have h2 := h.2.1 rfl
  simpa [testPlayer, Player.get_volume] using h2

/-- C10: when `url_resolved` is missing or empty, `play_station` returns the
failure indicator and leaves the whole player state — engine, shared
now-playing state, volumes, session state and persisted file — unchanged. -/
theorem C10_play_station_no_url (p : Player) (st : Station)
    (h : st.url_resolved = none ∨ st.url_resolved = some "") :
    p.play_station st = (false, p) := by
  unfold Player.play_station
  rcases h with h | h <;> simp [h]

/-- C10 witness: a station with no resolved URL is rejected without effect. -/
theorem C10_witness :
    (testPlayer 5).play_station
      { url_resolved := none, name := some "X", stationuuid := some "y" } =
      (false, testPlayer 5) :=
  C10_play_station_no_url _ _ (Or.inl rfl)

theorem tmp_path_ne (path : String) : tmp_path path ≠ path := by
  intro h
  have hlen := congrArg String.length h
  have h4 : (".tmp" : String).length = 4 := by decide
  rw [tmp_path, String.length_append, h4] at hlen
  omega

/-- C6: at every elementary step of `save_json` — any point of the write of
the temporary file, and after the atomic `os.replace` — the target path holds
either its previous contents or the complete new contents, never a partial
write; after the rename it holds exactly the new contents.  The temporary
path is the target path plus `".tmp"` (no path separator), hence in the same
directory. -/
theorem C6_save_json_atomic (fs : FS) (path data : String) (k : Nat) :
    (save_json_state fs path data k path = fs path ∨
     save_json_state fs path data k path = some data) ∧
    (data.length < k → save_json_state fs path data k path = some data) ∧
    tmp_path path = path ++ ".tmp" ∧
    (∀ c ∈ (".tmp" : String).data, c ≠ '/') := by
  have hne : path ≠ tmp_path path := Ne.symm (tmp_path_ne path)
  refine ⟨?_, ?_, rfl, by decide⟩
  · unfold save_json_state
    by_cases hk : k ≤ data.length
    · left
      simp [hk, hne]
    · right
      simp [hk]
  · intro hlt
    unfold save_json_state
    simp [Nat.not_le.mpr hlt]

/-- C6 witness: after the rename step the target holds the new contents. -/
theorem C6_witness :
    save_json_state (fun _ => none) "state.json" "d" 2 "state.json" =
      some "d" :=
  (C6_save_json_atomic (fun _ => none) "state.json" "d" 2).2.1 (by decide)

/-- C7: `load_json` is total — it never propagates an exception — and returns
the given default when the file is missing or fails to parse; at the three
call sites the documented defaults are the empty favorites map, the empty
volumes map, and `{last_stationuuid: none, show_history: true}`.  In
particular a corrupt favorites file loads as the empty map. -/
theorem C7_load_json_defaults :
    (∀ (α : Type) (d : α),
      load_json FileData.missing d = d ∧
      load_json FileData.corrupt d = d ∧
      (∀ a, load_json (FileData.parsed a) d = a)) ∧
    load_favorites FileData.corrupt = [] ∧
    load_favorites FileData.missing = [] ∧
    load_volumes FileData.corrupt = [] ∧
    load_volumes FileData.missing = [] ∧
    load_state FileData.corrupt = default_state ∧
    load_state FileData.missing = default_state ∧
    default_state = { last_stationuuid := none, show_history := true } :=
  ⟨fun _ _ => ⟨rfl, rfl, fun _ => rfl⟩, rfl, rfl, rfl, rfl, rfl, rfl, rfl⟩

theorem append_sep_ne_empty (a b : String) : a ++ " — " ++ b ≠ "" := by
  intro h
  have hlen := congrArg String.length h
  have h3 : (" — " : String).length = 3 := by decide
  have h0 : ("" : String).length = 0 := rfl
  rw [String.length_append, String.length_append, h3, h0] at hlen
  omega

/-- C8: the line resolved by the metadata poller follows the first-non-empty
precedence — the combined `artist — title` form (a candidate exactly when
both components are non-empty), then the title alone, then the now-playing
tag, then the description tag, then the fixed placeholder — for every
combination of optional engine metadata fields; and the resolved string is
precisely the one fed to `update_line` when media is loaded. -/
theorem C8_meta_precedence :
    (∀ m : MediaMeta, meta_line m = meta_line_spec m) ∧
    (∀ (now : NowPlaying) (m : MediaMeta),
      meta_tick now (some m) = update_line now (meta_line m)) := by
  refine ⟨?_, fun _ _ => rfl⟩
  intro m
  unfold meta_line meta_line_spec
  by_cases ha : m.artist.getD "" = "" <;> by_cases ht : m.title.getD "" = "" <;>
    simp [firstNonEmpty, ha, ht, append_sep_ne_empty]

/-- C9 counterexample: with volume 45, display width 30 and active playback,
the code's `int(...)` truncation yields level 13, while the claimed
`round(...)` yields 14. -/
theorem C9_counterexample :
    vu_fallback 45 30 true = 13 ∧
    round ((45 : ℚ) / 100 * 30) = 14 ∧
    (13 : Int) ≠ 14 := by
  refine ⟨by norm_num [vu_fallback, py_int, clamp], ?_, by decide⟩
  norm_num [round_eq]

/-- C9 (amended): when the probe yields no sample, the fallback level is
deterministic — 0 whenever playback is inactive, regardless of volume, and
`int((volume / 100) * width)` (truncation toward zero, not rounding to
nearest) clamped to `[0, width]` when playing — and the result always lies
in `[0, width]` for the width `min(30, max(10, w - 20))` the browser uses. -/
theorem C9_vu_fallback (w volume : Int) (playing : Bool) :
    (playing = false → vu_fallback volume (vu_width w) playing = 0) ∧
    (playing = true → vu_fallback volume (vu_width w) playing =
      clamp (py_int ((volume : ℚ) / 100 * (vu_width w : ℚ))) 0 (vu_width w)) ∧
    0 ≤ vu_fallback volume (vu_width w) playing ∧
    vu_fallback volume (vu_width w) playing ≤ vu_width w := by
  have hw : (10 : Int) ≤ vu_width w :=
    le_min (by norm_num) (le_max_left 10 (w - 20))
  have hw0 : (0 : Int) ≤ vu_width w := le_trans (by norm_num) hw
  refine ⟨?_, ?_, ?_, ?_⟩
  · intro hp
    subst hp
    unfold vu_fallback clamp
    simp only [Bool.false_eq_true, if_false]
    rw [min_eq_right hw0]
    exact max_self 0
  · intro hp
    subst hp
    rfl
  · exact le_max_left 0 _
  · exact max_le hw0 (min_le_left _ _)

/-- C9 witness: concrete instances of both fallback branches at width
`vu_width 100 = 30`. -/
theorem C9_witness :
    vu_fallback 45 (vu_width 100) false = 0 ∧
    vu_fallback 45 (vu_width 100) true =
      clamp (py_int ((45 : ℚ) / 100 * (vu_width 100 : ℚ))) 0 (vu_width 100) :=
  ⟨(C9_vu_fallback 100 45 false).1 rfl, (C9_vu_fallback 100 45 true).2.1 rfl⟩

theorem pollerStep_flag_mono (a b : PollerSys) (h : PollerStep a b)
    (ha : a.stop_flag = true) :
    b.stop_flag = true ∧
    b.writes + writeBound b.pc ≤ a.writes + writeBound a.pc := by
  cases h with
  | shutdown => exact ⟨rfl, le_refl _⟩
  | check_continue h1 h2 => simp [ha] at h1
  | check_exit h1 h2 =>
    refine ⟨ha, ?_⟩
    simp [writeBound, h2]
  | write_line h =>
    refine ⟨ha, ?_⟩
    simp [writeBound, h]
  | sleep_done h =>
    refine ⟨ha, ?_⟩
    simp [writeBound, h]

/-- C4 counterexample: `shutdown` only sets `_stop_flag` and returns without
joining the daemon thread; from the state where the poller has passed the
loop check and is about to write, `shutdown` returns (first step) while the
poller is not terminated, and the poller then performs a further shared-state
write (second step) after `shutdown` has returned. -/
theorem C4_counterexample :
    PollerStep ⟨false, PollerPC.working, 0⟩ ⟨true, PollerPC.working, 0⟩ ∧
    (⟨true, PollerPC.working, 0⟩ : PollerSys).pc ≠ PollerPC.stopped ∧
    PollerStep ⟨true, PollerPC.working, 0⟩ ⟨true, PollerPC.sleeping, 1⟩ ∧
    (⟨true, PollerPC.sleeping, 1⟩ : PollerSys).writes =
      (⟨true, PollerPC.working, 0⟩ : PollerSys).writes + 1 := by
  refine ⟨PollerStep.shutdown _, by decide, PollerStep.write_line _ rfl, rfl⟩

/-- C4 (amended): after `shutdown` sets the stop flag the flag stays set, the
poller performs at most one further shared-state write (the iteration already
in flight), and once it next reaches the loop check it can only terminate —
but `shutdown` does not await that termination, so the in-flight write may
land after `shutdown` has returned. -/
theorem C4_shutdown_bounds (s t : PollerSys) (hflag : s.stop_flag = true)
    (hsteps : Relation.ReflTransGen PollerStep s t) :
    t.stop_flag = true ∧ t.writes ≤ s.writes + 1 ∧
    (∀ u, PollerStep t u → t.pc = PollerPC.checking →
      u.pc = PollerPC.stopped ∨ u.pc = PollerPC.checking) := by
  have key : t.stop_flag = true ∧
      t.writes + writeBound t.pc ≤ s.writes + writeBound s.pc := by
    induction hsteps with
    | refl => exact ⟨hflag, le_refl _⟩
    | tail hab hbc ih =>
      obtain ⟨hb, hle⟩ := ih
      obtain ⟨hc, hstep⟩ := pollerStep_flag_mono _ _ hbc hb
      exact ⟨hc, le_trans hstep hle⟩
  refine ⟨key.1, ?_, ?_⟩
  · have h2 := key.2
    have hb1 : writeBound s.pc ≤ 1 := by cases s.pc <;> simp [writeBound]
    omega
  · intro u hu hpc
    cases hu with
    | shutdown => right; exact hpc
    | check_continue h1 h2 => simp [key.1] at h1
    | check_exit h1 h2 => left; rfl
    | write_line h => rw [hpc] at h; cases h
    | sleep_done h => rw [hpc] at h; cases h

/-- C4 witness: the amended bound instantiated on the empty run from a
flag-set state. -/
theorem C4_witness :
    (⟨true, PollerPC.working, 3⟩ : PollerSys).stop_flag = true ∧
    (⟨true, PollerPC.working, 3⟩ : PollerSys).writes ≤ 3 + 1 := by
  have h := C4_shutdown_bounds ⟨true, PollerPC.working, 3⟩
    ⟨true, PollerPC.working, 3⟩ rfl Relation.ReflTransGen.refl
  exact ⟨h.1, h.2.1⟩

/-- C5 counterexample: `set_station` and `update_line` (when the line
changes) call `_write_nowplay` while holding the lock, and the cache-file
write it performs is I/O — the critical sections are not I/O-free. -/
theorem C5_counterexample :
    LockAction.write_cache ∈ set_station_critical ∧
    LockAction.write_cache ∈ update_line_critical true ∧
    LockAction.write_cache.effectful = true := by
  decide

/-- C5 (amended): `snapshot`'s critical section is I/O-free; `set_station`
and `update_line` do perform I/O under the lock, but every effectful action
in any critical section comes from the single `_write_nowplay` call (cache
directory creation, cache-file write, optional tmux spawn), and every
critical section is a bounded straight-line sequence of at most 7 actions. -/
theorem C5_critical_sections :
    (∀ a ∈ snapshot_critical, a.effectful = false) ∧
    (∀ a ∈ update_line_critical true,
      a.effectful = true → a ∈ write_nowplay_actions) ∧
    (∀ a ∈ update_line_critical false,
      a.effectful = true → a ∈ write_nowplay_actions) ∧
    (∀ a ∈ set_station_critical,
      a.effectful = true → a ∈ write_nowplay_actions) ∧
    snapshot_critical.length ≤ 7 ∧
    set_station_critical.length ≤ 7 ∧
    (update_line_critical true).length ≤ 7 ∧
    (update_line_critical false).length ≤ 7 := by
  decide

/-- C5 witness: the snapshot clause applied to its single action. -/
theorem C5_witness : LockAction.assign.effectful = false :=
  C5_critical_sections.1 LockAction.assign (by decide)

end Radiodigger
